import Mathlib

/-!
Verification development for the Cambodia digital-economy analytics dashboard
(`src/main.py`).  The two pieces of real logic — the synthetic series
generator `generate_realistic_data` and the prediction pipeline inside the
Predictions tab — are embedded shallowly below, together with the small
helpers the dashboard builds around them (z-score selection, growth-level
bucketing, slider clamping, and the spreadsheet-export error handling).

Python float arithmetic is idealised as exact rational (ℚ) arithmetic where
the code only uses field operations, and as real (ℝ) arithmetic where the
code calls `np.log1p` / `np.expm1` / `np.sqrt`.  `np.random.normal` draws are
derandomised into an explicit noise stream parameter; "noise disabled" is the
all-ones stream.
-/

namespace Dashboard

/-- Python `int(q)` on a float: truncation toward zero. -/
def pyInt (q : ℚ) : ℤ := if q < 0 then ⌈q⌉ else ⌊q⌋

/-- The running `current_value` of `generate_realistic_data` (src/main.py
lines 183-191) for one category: starts at `start`, and each later step
multiplies by `growth_factor = (1 + rate/100) * variance`, where the
variance draw for step `i` is `noise i`.  The running value is a float that
is never truncated between steps. -/
def currentValue (rate start : ℚ) (noise : ℕ → ℚ) : ℕ → ℚ
  | 0 => start
  | i + 1 => currentValue rate start noise i * ((1 + rate / 100) * noise (i + 1))

/-- The value appended for step `i` (src/main.py lines 186-192):
`int(current_value)` at step 0, and `int(max(current_value, 1))` at every
later step. -/
def seriesValue (rate start : ℚ) (noise : ℕ → ℚ) : ℕ → ℤ
  | 0 => pyInt start
  | i + 1 => pyInt (max (currentValue rate start noise (i + 1)) 1)

/-- The column of values generated for one category over `n` contiguous
years (src/main.py lines 180-194). -/
def generateSeries (rate start : ℚ) (noise : ℕ → ℚ) (n : ℕ) : List ℤ :=
  (List.range n).map (seriesValue rate start noise)

/-- `generate_realistic_data` (src/main.py lines 175-196): one column per
category in `growthRates`, the start value looked up in `startValues` with
default 100, over `n` contiguous years.  The noise streams of the categories
are independent, modelled by indexing the stream with the category name. -/
def generateRealisticData (growthRates : List (String × ℚ))
    (startValues : List (String × ℚ)) (noise : String → ℕ → ℚ) (n : ℕ) :
    List (String × List ℤ) :=
  growthRates.map fun p =>
    (p.1, generateSeries p.2 ((startValues.lookup p.1).getD 100) (noise p.1) n)

/-- `z_score = 1.96 if confidence_level == 95 else 2.58` (src/main.py
line 860). -/
def zScoreQ (c : ℤ) : ℚ := if c = 95 then 196 / 100 else 258 / 100

/-- A `st.slider(min_value=lo, max_value=hi)` widget only ever yields a
value inside `[lo, hi]`; the clamp models that constraint. -/
def sliderValue (lo hi v : ℤ) : ℤ := max lo (min hi v)

/-- `'High' if rate > 30 else 'Medium' if rate > 20 else 'Low'`
(src/main.py line 565), applied to the scenario-adjusted growth rate. -/
def growthLevel (rate : ℚ) : String :=
  if rate > 30 then "High" else if rate > 20 then "Medium" else "Low"

/-- Error kinds of the percentage-growth helper described in spec §4.3. -/
inductive GrowthError
  | startNotBeforeEnd
  | yearAbsent
  | zeroBase
deriving DecidableEq, Repr

/-- Looks a year up in a (year, value) series. -/
def lookupYear : List (ℤ × ℚ) → ℤ → Option ℚ
  | [], _ => none
  | (y, v) :: rest, t => if y = t then some v else lookupYear rest t

/-- Modelled from the spec: no percentage-growth-between-two-points helper
exists anywhere under src/; spec §4.3 is the only description.  Given a
series and two selected years (start < end required), it returns
`((value_end - value_start) / value_start) * 100`, failing explicitly when
start ≥ end (before any lookup), when either year is absent, or when the
start value is 0. -/
def growthBetween (series : List (ℤ × ℚ)) (startY endY : ℤ) :
    Except GrowthError ℚ :=
  if endY ≤ startY then .error .startNotBeforeEnd
  else
    match lookupYear series startY, lookupYear series endY with
    | some vs, some ve =>
        if vs = 0 then .error .zeroBase
        else .ok ((ve - vs) / vs * 100)
    | _, _ => .error .yearAbsent

/-- `np.log1p x = log (1 + x)`. -/
noncomputable def log1p (x : ℝ) : ℝ := Real.log (1 + x)

/-- `np.expm1 x = exp x - 1`. -/
noncomputable def expm1 (x : ℝ) : ℝ := Real.exp x - 1

/-- Value at `t` of the fitted pipeline
`PolynomialFeatures(degree=2) + LinearRegression` (src/main.py lines
843-848) with coefficients `β = (β₀, β₁, β₂)`:
`poly_model.predict([t]) = β₀ + β₁·t + β₂·t²`. -/
def polyPredict (β : ℝ × ℝ × ℝ) (t : ℝ) : ℝ :=
  β.1 + β.2.1 * t + β.2.2 * t ^ 2

/-- Squared in-sample loss of coefficients `β` on the `log1p`-transformed
values; `LinearRegression.fit` returns a minimiser of this loss. -/
noncomputable def sqLoss (X y : List ℝ) (β : ℝ × ℝ × ℝ) : ℝ :=
  ((List.zipWith (fun t v => log1p v - polyPredict β t) X y).map
    (fun r => r ^ 2)).sum

/-- `β` is a least-squares fit of the transformed values against the
degree-2 polynomial expansion of year, as `poly_model.fit(X, np.log1p(y))`
(src/main.py line 848) computes. -/
def IsLSQFit (X y : List ℝ) (β : ℝ × ℝ × ℝ) : Prop :=
  ∀ β', sqLoss X y β ≤ sqLoss X y β'

/-- `residuals = np.log1p(y) - poly_model.predict(X)` (src/main.py
line 858), elementwise over the historical points. -/
noncomputable def residualsList (β : ℝ × ℝ × ℝ) (X y : List ℝ) : List ℝ :=
  List.zipWith (fun t v => log1p v - polyPredict β t) X y

/-- `mse = np.mean(residuals**2)` (src/main.py line 859). -/
noncomputable def mse (β : ℝ × ℝ × ℝ) (X y : List ℝ) : ℝ :=
  ((residualsList β X y).map (fun r => r ^ 2)).sum / (residualsList β X y).length

/-- `margin_error = z_score * np.sqrt(mse)` (src/main.py line 862). -/
noncomputable def marginError (c : ℤ) (β : ℝ × ℝ × ℝ) (X y : List ℝ) : ℝ :=
  (zScoreQ c : ℝ) * Real.sqrt (mse β X y)

/-- `predictions = np.expm1(pred_log)` at year `t` (src/main.py lines
855-856). -/
noncomputable def predictions (β : ℝ × ℝ × ℝ) (t : ℝ) : ℝ :=
  expm1 (polyPredict β t)

/-- `ci_upper = np.expm1(pred_log + margin_error)` at year `t` (src/main.py
line 863). -/
noncomputable def ciUpper (c : ℤ) (β : ℝ × ℝ × ℝ) (X y : List ℝ) (t : ℝ) : ℝ :=
  expm1 (polyPredict β t + marginError c β X y)

/-- `ci_lower = np.expm1(pred_log - margin_error)` at year `t` (src/main.py
line 864). -/
noncomputable def ciLower (c : ℤ) (β : ℝ × ℝ × ℝ) (X y : List ℝ) (t : ℝ) : ℝ :=
  expm1 (polyPredict β t - marginError c β X y)

/-- `future_years = np.arange(last + 1, last + 1 + h)` (src/main.py lines
850-853); like `np.arange`, empty when the horizon is not positive. -/
def futureYearsList (lastY h : ℤ) : List ℤ :=
  (List.range h.toNat).map fun j => lastY + 1 + j

/-- The rows of `pred_df` (src/main.py lines 866-871), one per future year:
(year, point prediction, lower CI, upper CI), before the display cast to
int. -/
noncomputable def predDf (X y : List ℝ) (lastY h : ℤ) (β : ℝ × ℝ × ℝ)
    (c : ℤ) : List (ℤ × ℝ × ℝ × ℝ) :=
  (futureYearsList lastY h).map fun yr =>
    (yr, predictions β yr, ciLower c β X y yr, ciUpper c β X y yr)

/-- Error outcome of the prediction tab's `try` block (src/main.py lines
839 and 925-926): a raised exception is caught and reported generically;
there is no invalid-input check anywhere in the block. -/
inductive PredError
  | invalidInput
  | exception
deriving DecidableEq, Repr

/-- The prediction tab computation as an exception-aware result.  The
statements in the `try` block (src/main.py lines 839-925) that can raise on
the numeric inputs modelled here are exactly the sklearn calls handed a
zero-sample array (sklearn's input check requires at least one sample):
`poly_model.fit` when the historical design matrix is empty, and
`poly_model.predict(future_years)` (line 855) when the future-year range is
empty, i.e. when the horizon is not positive.  Every other step is total.
Either raise lands in the generic `except` at lines 925-926; no
invalid-input check is performed anywhere in the block. -/
noncomputable def predictionTab (X y : List ℝ) (lastY h : ℤ)
    (β : ℝ × ℝ × ℝ) (c : ℤ) : Except PredError (List (ℤ × ℝ × ℝ × ℝ)) :=
  if X.isEmpty then .error .exception
  else if (futureYearsList lastY h).isEmpty then .error .exception
  else .ok (predDf X y lastY h β c)

/-- Spec-side: "transform each historical value via `log(value + 1)`". -/
noncomputable def specTransformed (y : List ℝ) : List ℝ := y.map log1p

/-- Spec-side: "compute in-sample residuals in transformed space". -/
noncomputable def specResiduals (β : ℝ × ℝ × ℝ) (X y : List ℝ) : List ℝ :=
  List.zipWith (fun t w => w - polyPredict β t) X (specTransformed y)

/-- Spec-side: "take ... the mean squared residual as the noise estimate". -/
noncomputable def specMeanSqResidual (β : ℝ × ℝ × ℝ) (X y : List ℝ) : ℝ :=
  ((specResiduals β X y).map (fun r => r ^ 2)).sum / (specResiduals β X y).length

/-- Spec-side: the noise level σ, the square root of the mean squared
residual in transformed space. -/
noncomputable def specSigma (β : ℝ × ℝ × ℝ) (X y : List ℝ) : ℝ :=
  Real.sqrt (specMeanSqResidual β X y)

/-- Spec-side: "predict in transformed space, then back-transform via
`exp(pred) - 1` to obtain the point forecast". -/
noncomputable def specPointForecast (β : ℝ × ℝ × ℝ) (t : ℝ) : ℝ :=
  expm1 (polyPredict β t)

/-- Spec-side: "apply − z·σ in transformed space before back-transforming
to obtain the lower bound". -/
noncomputable def specLowerBound (c : ℤ) (β : ℝ × ℝ × ℝ) (X y : List ℝ)
    (t : ℝ) : ℝ :=
  expm1 (polyPredict β t - (zScoreQ c : ℝ) * specSigma β X y)

/-- Spec-side: "apply + z·σ in transformed space before back-transforming
to obtain the upper bound". -/
noncomputable def specUpperBound (c : ℤ) (β : ℝ × ℝ × ℝ) (X y : List ℝ)
    (t : ℝ) : ℝ :=
  expm1 (polyPredict β t + (zScoreQ c : ℝ) * specSigma β X y)

/-- `style_excel_sheet` error handling (src/main.py lines 459-461): the
body of the function is abstracted as an outcome that either completes or
raises; on a raise, the `except` clause reports
`"Error styling Excel sheet: ..."` via `st.error` and then re-raises.  The
result pairs the list of reported messages with the escaping outcome. -/
def styleExcelSheet (body : Except String Unit) :
    List String × Except String Unit :=
  match body with
  | .ok () => ([], .ok ())
  | .error e => (["Error styling Excel sheet: " ++ e], .error e)

/-- `create_styled_excel` (src/main.py lines 466-484): writes the four
sheets (`writeBody`), then runs `style_excel_sheet` (`styleBody`); its
`except` clause reports `"Error creating Excel file: ..."` via `st.error`
and then re-raises. -/
def createStyledExcel (writeBody styleBody : Except String Unit) :
    List String × Except String Unit :=
  match writeBody with
  | .error e => (["Error creating Excel file: " ++ e], .error e)
  | .ok () =>
    match styleExcelSheet styleBody with
    | (msgs, .ok ()) => (msgs, .ok ())
    | (msgs, .error e) =>
        (msgs ++ ["Error creating Excel file: " ++ e], .error e)

/-- The export path at src/main.py line 970:
`excel_data = create_styled_excel(...)` is called with no surrounding
`try`, so whatever `create_styled_excel` raises propagates out. -/
def exportSection (writeBody styleBody : Except String Unit) :
    List String × Except String Unit :=
  createStyledExcel writeBody styleBody

/-! ### Helper lemmas -/

/-- With the all-ones noise stream the running value is exact exponential
growth. -/
theorem currentValue_noiseless (r s : ℚ) (noise : ℕ → ℚ)
    (hn : ∀ i, noise i = 1) : ∀ i, currentValue r s noise i = s * (1 + r / 100) ^ i := by
  intro i
  induction i with
  | zero => simp [currentValue]
  | succ k ih =>
      rw [currentValue, ih, hn, pow_succ]
      ring

/-- Truncating `max c 1` toward zero equals `max ⌊c⌋ 1`. -/
theorem pyInt_max_one (c : ℚ) : pyInt (max c 1) = max ⌊c⌋ 1 := by
  rcases le_total c 1 with h | h
  · have h2 : ⌊c⌋ ≤ (1 : ℤ) := by
      calc ⌊c⌋ ≤ ⌊(1 : ℚ)⌋ := Int.floor_le_floor h
        _ = 1 := by norm_num
    rw [max_eq_right h, max_eq_right h2]
    norm_num [pyInt]
  · have h2 : (1 : ℤ) ≤ ⌊c⌋ := by
      calc (1 : ℤ) = ⌊(1 : ℚ)⌋ := by norm_num
        _ ≤ ⌊c⌋ := Int.floor_le_floor h
    have hc : ¬ c < 0 := by linarith
    rw [max_eq_left h, max_eq_left h2]
    simp [pyInt, hc]

/-! ### Claims -/

/-- C1 (counterexample): at growth rate −50 and starting magnitude 1,
with noise disabled, the generator produces value 1 at step 1 (the
floor-at-1 kicks in), while `⌊s · (1 + r/100)^1⌋ = 0`, so the claimed
closed form `⌊s · (1 + r/100)^i⌋` does not hold for every rate. -/
theorem generateSeries_floor_claim_false :
    generateSeries (-50) 1 (fun _ => 1) 2 = [1, 1]
    ∧ ⌊(1 : ℚ) * (1 + (-50) / 100) ^ 1⌋ = (0 : ℤ) := by
  norm_num [generateSeries, seriesValue, currentValue, pyInt, List.range_succ]

/-- C1 (amended): with noise disabled and starting magnitude `s > 0`, the
value at step 0 is `⌊s⌋` and the value at step `i ≥ 1` is
`max ⌊s · (1 + r/100)^i⌋ 1` — the claimed closed form clamped below at 1;
in particular it equals `⌊s · (1 + r/100)^i⌋` whenever that quantity is at
least 1. -/
theorem generateSeries_noiseless_closed_form (r s : ℚ) (noise : ℕ → ℚ)
    (N i : ℕ) (hs : 0 < s) (hn : ∀ j, noise j = 1) (hi : i < N) :
    (generateSeries r s noise N)[i]? =
      some (if i = 0 then ⌊s⌋ else max ⌊s * (1 + r / 100) ^ i⌋ 1) := by
  rw [generateSeries, List.getElem?_map, List.getElem?_range hi]
  cases i with
  | zero =>
      have : ¬ s < 0 := by linarith
      simp [seriesValue, pyInt, this]
  | succ k =>
      have hcur := currentValue_noiseless r s noise hn (k + 1)
      simp [seriesValue, hcur, pyInt_max_one]

/-- C1 (witness). -/
theorem generateSeries_noiseless_closed_form_witness :
    (generateSeries 20 100 (fun _ => 1) 3)[2]? =
      some (if 2 = 0 then ⌊(100 : ℚ)⌋ else max ⌊(100 : ℚ) * (1 + 20 / 100) ^ 2⌋ 1) :=
  generateSeries_noiseless_closed_form 20 100 (fun _ => 1) 3 2 (by norm_num)
    (fun _ => rfl) (by norm_num)

/-- C5 (counterexample): with the positive starting magnitude 1/2 the
generator's first value is `int(0.5) = 0`: the first value is not floored
at 1, so not every value of the table is at least 1. -/
theorem first_value_not_floored_at_one :
    generateSeries 20 (1 / 2) (fun _ => 1) 1 = [0] ∧ (0 : ℚ) < 1 / 2 := by
  norm_num [generateSeries, seriesValue, pyInt, List.range_succ]

/-- C5 (amended): every value of the series from step 1 on is at least 1,
under every noise stream; when the starting magnitude is at least 1 every
value including the first is at least 1; but the first value is
`int(start)` with no floor at 1. -/
theorem generateSeries_value_bounds (r s : ℚ) (noise : ℕ → ℚ) (N i : ℕ)
    (v : ℤ) :
    ((generateSeries r s noise N)[i]? = some v → 1 ≤ i → 1 ≤ v)
    ∧ ((generateSeries r s noise N)[i]? = some v → 1 ≤ s → 1 ≤ v)
    ∧ ((generateSeries r s noise N)[0]? = some v → v = pyInt s) := by
  have hval : ∀ j, (generateSeries r s noise N)[j]? = some v →
      v = seriesValue r s noise j := by
    intro j hj
    rcases Nat.lt_or_ge j N with hlt | hge
    · rw [generateSeries, List.getElem?_map, List.getElem?_range hlt] at hj
      exact (Option.some_inj.mp hj).symm
    · rw [generateSeries, List.getElem?_eq_none_iff.mpr (by simpa using hge)] at hj
      exact absurd hj (by simp)
  refine ⟨?_, ?_, ?_⟩
  · intro hj hi
    rcases i with _ | k
    · omega
    · rw [hval _ hj, seriesValue, pyInt_max_one]
      exact le_max_right _ _
  · intro hj hs
    rcases i with _ | k
    · rw [hval _ hj]
      have : ¬ s < 0 := by linarith
      simp only [seriesValue, pyInt, this, if_false]
      calc (1 : ℤ) = ⌊(1 : ℚ)⌋ := by norm_num
        _ ≤ ⌊s⌋ := Int.floor_le_floor hs
    · rw [hval _ hj, seriesValue, pyInt_max_one]
      exact le_max_right _ _
  · intro hj
    rw [hval _ hj]
    rfl

/-- C5 (witness): with start 1/2 and an adverse noise draw of 0.9, the
value at step 1 is 1, and indeed at least 1. -/
theorem generateSeries_value_bounds_witness :
    (generateSeries 20 (1 / 2) (fun _ => 9 / 10) 2)[1]? = some 1
    ∧ (1 : ℤ) ≤ 1 := by
  have hv : (generateSeries 20 (1 / 2) (fun _ => 9 / 10) 2)[1]? = some 1 := by
    norm_num [generateSeries, seriesValue, currentValue, pyInt, List.range_succ]
  exact ⟨hv, (generateSeries_value_bounds 20 (1 / 2) (fun _ => 9 / 10) 2 1 1).1
    hv (by norm_num)⟩

/-- C9: the noise-free generator is deterministic — two calls with the
same growth-rate table, the same start-value table and the same year count,
each with noise disabled, produce identical output tables. -/
theorem generateRealisticData_deterministic (gr sv : List (String × ℚ))
    (n : ℕ) (noise1 noise2 : String → ℕ → ℚ)
    (h1 : ∀ k i, noise1 k i = 1) (h2 : ∀ k i, noise2 k i = 1) :
    generateRealisticData gr sv noise1 n = generateRealisticData gr sv noise2 n := by
  unfold generateRealisticData
  refine List.map_congr_left ?_
  intro p _
  refine congrArg _ ?_
  unfold generateSeries
  refine List.map_congr_left ?_
  intro i _
  cases i with
  | zero => rfl
  | succ k =>
      simp only [seriesValue, currentValue_noiseless _ _ _ (h1 p.1),
        currentValue_noiseless _ _ _ (h2 p.1)]

/-- C9 (witness). -/
theorem generateRealisticData_deterministic_witness :
    generateRealisticData [("AI/ML Engineer", 452 / 10)] [] (fun _ _ => 1) 3 =
      generateRealisticData [("AI/ML Engineer", 452 / 10)] [] (fun _ _ => 1) 3 :=
  generateRealisticData_deterministic [("AI/ML Engineer", 452 / 10)] [] 3 _ _
    (fun _ _ => rfl) (fun _ _ => rfl)

/-- C10: the qualitative bucket of a (scenario-adjusted) growth rate is
"High" exactly when the rate exceeds 30, "Medium" exactly when it exceeds
20 but is at most 30, and "Low" exactly when it is at most 20. -/
theorem growthLevel_buckets (r : ℚ) :
    (growthLevel r = "High" ↔ 30 < r)
    ∧ (growthLevel r = "Medium" ↔ 20 < r ∧ r ≤ 30)
    ∧ (growthLevel r = "Low" ↔ r ≤ 20) := by
  unfold growthLevel
  split_ifs with h1 h2 <;> refine ⟨?_, ?_, ?_⟩ <;> simp_all <;> linarith

/-- C10 (witness). -/
theorem growthLevel_buckets_witness :
    growthLevel 35 = "High" ∧ growthLevel 25 = "Medium" ∧ growthLevel 10 = "Low" :=
  ⟨(growthLevel_buckets 35).1.mpr (by norm_num),
   (growthLevel_buckets 25).2.1.mpr (by norm_num),
   (growthLevel_buckets 10).2.2.mpr (by norm_num)⟩

/-- C4 (counterexample): the confidence slider (src/main.py lines 832-836)
accepts every integer level from 80 to 99 — not just an enumerated
{95, 99} — and level 90 is assigned the z-score 2.58 that the claim fixes
for 99. -/
theorem confidence_level_not_enumerated :
    sliderValue 80 99 90 = 90 ∧ zScoreQ 90 = 258 / 100
    ∧ ¬((90 : ℤ) = 95 ∨ (90 : ℤ) = 99) := by
  norm_num [sliderValue, zScoreQ]

/-- C4 (amended): the confidence level is any integer in [80, 99]; level
95 maps to z = 1.96 and every other level (99 included) maps to z = 2.58. -/
theorem zScore_assignment (v c : ℤ) :
    (80 ≤ sliderValue 80 99 v ∧ sliderValue 80 99 v ≤ 99)
    ∧ zScoreQ 95 = 196 / 100
    ∧ (c ≠ 95 → zScoreQ c = 258 / 100) := by
  refine ⟨⟨le_max_left _ _, ?_⟩, by norm_num [zScoreQ], fun hc => by simp [zScoreQ, hc]⟩
  simp only [sliderValue]
  omega

/-- C4 (witness). -/
theorem zScore_assignment_witness :
    (80 ≤ sliderValue 80 99 90 ∧ sliderValue 80 99 90 ≤ 99)
    ∧ zScoreQ 95 = 196 / 100 ∧ zScoreQ 99 = 258 / 100 :=
  ⟨(zScore_assignment 90 99).1, (zScore_assignment 90 99).2.1,
   (zScore_assignment 90 99).2.2 (by norm_num)⟩

/-- C7: the percentage-growth helper returns
`((value_end - value_start) / value_start) * 100` when start < end, both
years are present and the start value is nonzero, and fails explicitly —
with the dedicated error kind, never a number — when start ≥ end (before
any lookup), when either year is absent, or when the start value is 0. -/
theorem growthBetween_contract (series : List (ℤ × ℚ)) (s e : ℤ) (vs ve : ℚ) :
    (e ≤ s → growthBetween series s e = .error .startNotBeforeEnd)
    ∧ (s < e → lookupYear series s = some vs → lookupYear series e = some ve →
        vs ≠ 0 → growthBetween series s e = .ok ((ve - vs) / vs * 100))
    ∧ (s < e → lookupYear series s = some vs → lookupYear series e = some ve →
        vs = 0 → growthBetween series s e = .error .zeroBase)
    ∧ (s < e → (lookupYear series s = none ∨ lookupYear series e = none) →
        growthBetween series s e = .error .yearAbsent) := by
  refine ⟨?_, ?_, ?_, ?_⟩
  · intro h
    simp [growthBetween, h]
  · intro h hs he hvs
    simp [growthBetween, not_le.mpr h, hs, he, hvs]
  · intro h hs he hvs
    simp [growthBetween, not_le.mpr h, hs, he, hvs]
  · intro h hnone
    rcases hnone with hn | hn <;>
      rcases hcs : lookupYear series s with _ | ws <;>
      rcases hce : lookupYear series e with _ | we <;>
      simp_all [growthBetween, not_le.mpr h]

/-- C7 (witness): the spec's own test — series [100, 200] at years
[2025, 2026] gives 100% growth. -/
theorem growthBetween_contract_witness :
    growthBetween [((2025 : ℤ), (100 : ℚ)), (2026, 200)] 2025 2026 = .ok 100 := by
  have h := (growthBetween_contract [((2025 : ℤ), (100 : ℚ)), (2026, 200)]
    2025 2026 100 200).2.1 (by norm_num) (by norm_num [lookupYear])
    (by norm_num [lookupYear]) (by norm_num)
  rw [h]
  norm_num

/-- C8 (counterexample): an error raised while styling the workbook is
reported, but the exception still escapes the export path — both `except`
clauses re-raise and the call site at src/main.py line 970 has no handler. -/
theorem export_error_propagates :
    (exportSection (.ok ()) (.error "boom")).2 = .error "boom"
    ∧ (exportSection (.ok ()) (.error "boom")).1 ≠ [] := by
  constructor
  · rfl
  · simp [exportSection, createStyledExcel, styleExcelSheet]

/-- C8 (amended): any error while building the spreadsheet is caught and
reported via an on-page error message, but it is then re-raised, and since
the call site has no handler the exception propagates out of the export
path; only a fully successful build yields a normal result. -/
theorem export_error_reported_then_reraised (w s : Except String Unit)
    (e : String) :
    (w = .error e → exportSection w s =
      (["Error creating Excel file: " ++ e], .error e))
    ∧ (w = .ok () → s = .error e → exportSection w s =
      (["Error styling Excel sheet: " ++ e,
        "Error creating Excel file: " ++ e], .error e))
    ∧ (w = .ok () → s = .ok () → exportSection w s = ([], .ok ())) := by
  refine ⟨?_, ?_, ?_⟩
  · rintro rfl
    rfl
  · rintro rfl rfl
    rfl
  · rintro rfl rfl
    rfl

/-- C8 (witness). -/
theorem export_error_reported_then_reraised_witness :
    exportSection (.ok ()) (.error "x") =
      (["Error styling Excel sheet: " ++ "x",
        "Error creating Excel file: " ++ "x"], .error "x") :=
  (export_error_reported_then_reraised (.ok ()) (.error "x") "x").2.1 rfl rfl

/-- C2: given a least-squares fit `β` of the `log1p`-transformed values
against the degree-2 polynomial expansion of year, the pipeline's noise
estimate is the mean squared residual in transformed space, and every
forecast row back-transforms via `expm1`: the point forecast is
`expm1 (prediction)` and the bounds are `expm1 (prediction ± z·σ)` with
`σ = √(mean squared residual)`; the forecast table consists of exactly
these values at each future year. -/
theorem prediction_pipeline_matches_spec (X y : List ℝ) (lastY h c : ℤ)
    (β : ℝ × ℝ × ℝ) (_hfit : IsLSQFit X y β) :
    mse β X y = specMeanSqResidual β X y
    ∧ (∀ t, predictions β t = specPointForecast β t)
    ∧ (∀ t, ciLower c β X y t = specLowerBound c β X y t)
    ∧ (∀ t, ciUpper c β X y t = specUpperBound c β X y t)
    ∧ predDf X y lastY h β c = (futureYearsList lastY h).map
        (fun yr : ℤ => (yr, specPointForecast β (yr : ℝ),
          specLowerBound c β X y (yr : ℝ), specUpperBound c β X y (yr : ℝ))) := by
  have hres : residualsList β X y = specResiduals β X y := by
    rw [residualsList, specResiduals, specTransformed, List.zipWith_map_right]
  have hmse : mse β X y = specMeanSqResidual β X y := by
    rw [mse, specMeanSqResidual, hres]
  have hmargin : marginError c β X y = (zScoreQ c : ℝ) * specSigma β X y := by
    rw [marginError, specSigma, hmse]
  have hlo : ∀ t, ciLower c β X y t = specLowerBound c β X y t := by
    intro t
    rw [ciLower, specLowerBound, hmargin]
  have hhi : ∀ t, ciUpper c β X y t = specUpperBound c β X y t := by
    intro t
    rw [ciUpper, specUpperBound, hmargin]
  refine ⟨hmse, fun t => rfl, hlo, hhi, ?_⟩
  rw [predDf]
  refine List.map_congr_left fun yr _ => ?_
  rw [hlo, hhi]
  rfl

/-- C2 (witness): the one-point series (year 0, value 0) with coefficients
(0, 0, 0), which minimise the transformed-space squared loss there. -/
theorem prediction_pipeline_matches_spec_witness :
    IsLSQFit [0] [0] ((0 : ℝ), (0 : ℝ), (0 : ℝ))
    ∧ mse ((0 : ℝ), (0 : ℝ), (0 : ℝ)) [0] [0] =
        specMeanSqResidual ((0 : ℝ), (0 : ℝ), (0 : ℝ)) [0] [0]
    ∧ (∀ t, predictions ((0 : ℝ), (0 : ℝ), (0 : ℝ)) t =
        specPointForecast ((0 : ℝ), (0 : ℝ), (0 : ℝ)) t) := by
  have hfit : IsLSQFit [0] [0] ((0 : ℝ), (0 : ℝ), (0 : ℝ)) := by
    intro β'
    simp only [sqLoss, List.zipWith_cons_cons, List.zipWith_nil_right,
      List.map_cons, List.map_nil, List.sum_cons, List.sum_nil, add_zero,
      log1p, polyPredict]
    norm_num
    positivity
  have h := prediction_pipeline_matches_spec [0] [0] 0 1 95 _ hfit
  exact ⟨hfit, h.1, h.2.1⟩

/-- C3: for every year, the lower confidence bound is at most the point
prediction, which is at most the upper confidence bound — the margin
`z·√mse` is nonnegative and `expm1` is monotone, so the ordering survives
the back-transformation.  Every row of the forecast table instantiates
these three functions at a future year. -/
theorem ci_bounds_ordered (c : ℤ) (β : ℝ × ℝ × ℝ) (X y : List ℝ) (t : ℝ) :
    ciLower c β X y t ≤ predictions β t
    ∧ predictions β t ≤ ciUpper c β X y t := by
  have hz : (0 : ℝ) ≤ (zScoreQ c : ℝ) := by
    have : (0 : ℚ) ≤ zScoreQ c := by
      unfold zScoreQ
      split_ifs <;> norm_num
    exact_mod_cast this
  have hm : 0 ≤ marginError c β X y :=
    mul_nonneg hz (Real.sqrt_nonneg _)
  constructor
  · have hle : polyPredict β t - marginError c β X y ≤ polyPredict β t := by
      linarith
    have := Real.exp_le_exp.mpr hle
    simp only [ciLower, predictions, expm1]
    linarith
  · have hle : polyPredict β t ≤ polyPredict β t + marginError c β X y := by
      linarith
    have := Real.exp_le_exp.mpr hle
    simp only [ciUpper, predictions, expm1]
    linarith

/-- C6 (counterexample): the prediction pipeline performs no input
validation — a series with a single (hence fewer than 2 distinct) year
completes normally rather than failing; and a horizon of 0 makes the
predict call raise on the empty future-year array, which the generic
`except` reports as an exception — not the invalid-input error kind the
claim requires. -/
theorem extrapolator_no_explicit_error :
    predictionTab [(2020 : ℝ)] [(5 : ℝ)] 2020 3 ((0 : ℝ), (0 : ℝ), (0 : ℝ)) 95 =
      .ok (predDf [(2020 : ℝ)] [(5 : ℝ)] 2020 3 ((0 : ℝ), (0 : ℝ), (0 : ℝ)) 95)
    ∧ predictionTab [(2020 : ℝ), (2021 : ℝ)] [(5 : ℝ), (6 : ℝ)] 2021 0
        ((0 : ℝ), (0 : ℝ), (0 : ℝ)) 95 = .error .exception
    ∧ PredError.exception ≠ PredError.invalidInput := by
  refine ⟨rfl, rfl, by decide⟩

/-- C6 (amended): the horizon slider clamps every request into [1, 10], so
a horizon of 0 or less cannot be requested; were the horizon not positive,
the pipeline would produce no forecast rows but fail with a generic
exception (sklearn's predict rejecting the empty future-year array, caught
and reported by the generic `except`), not the invalid-input error kind;
and every nonempty series with a positive horizon, however few distinct
years it has, completes normally. -/
theorem extrapolator_horizon_behavior (v : ℤ) (X y : List ℝ) (lastY h : ℤ)
    (β : ℝ × ℝ × ℝ) (c : ℤ) :
    (1 ≤ sliderValue 1 10 v ∧ sliderValue 1 10 v ≤ 10)
    ∧ (h ≤ 0 → predictionTab X y lastY h β c = .error .exception)
    ∧ (X ≠ [] → 0 < h →
        predictionTab X y lastY h β c = .ok (predDf X y lastY h β c)) := by
  have hne : ∀ (Z : List ℝ), Z ≠ [] → Z.isEmpty = false := by
    intro Z hZ
    simpa [List.isEmpty_iff] using hZ
  refine ⟨⟨le_max_left _ _, ?_⟩, ?_, ?_⟩
  · simp only [sliderValue]
    omega
  · intro hh
    have h0 : futureYearsList lastY h = [] := by
      simp [futureYearsList, Int.toNat_of_nonpos hh]
    by_cases hX : X.isEmpty <;> simp [predictionTab, hX, h0]
  · intro hX hh
    have h1 : (futureYearsList lastY h).isEmpty = false := by
      have h2 : h.toNat ≠ 0 := by omega
      simp [futureYearsList, List.isEmpty_iff, List.range_eq_nil, h2]
      exact ⟨0, by omega⟩
    simp [predictionTab, hne X hX, h1]

/-- C6 (witness): even a request of 0 is clamped to horizon 1; with
horizon 0 the pipeline fails with the generic exception and yields no
rows; and with horizon 1 a single-year series completes normally. -/
theorem extrapolator_horizon_behavior_witness :
    (1 ≤ sliderValue 1 10 0 ∧ sliderValue 1 10 0 ≤ 10)
    ∧ predictionTab [(2020 : ℝ)] [(5 : ℝ)] 2020 0 ((0 : ℝ), (0 : ℝ), (0 : ℝ)) 95 =
        .error .exception
    ∧ predictionTab [(2020 : ℝ)] [(5 : ℝ)] 2020 1 ((0 : ℝ), (0 : ℝ), (0 : ℝ)) 95 =
        .ok (predDf [(2020 : ℝ)] [(5 : ℝ)] 2020 1 ((0 : ℝ), (0 : ℝ), (0 : ℝ)) 95) :=
  ⟨(extrapolator_horizon_behavior 0 [(2020 : ℝ)] [(5 : ℝ)] 2020 0
      ((0 : ℝ), (0 : ℝ), (0 : ℝ)) 95).1,
   (extrapolator_horizon_behavior 0 [(2020 : ℝ)] [(5 : ℝ)] 2020 0
      ((0 : ℝ), (0 : ℝ), (0 : ℝ)) 95).2.1 (by norm_num),
   (extrapolator_horizon_behavior 0 [(2020 : ℝ)] [(5 : ℝ)] 2020 1
      ((0 : ℝ), (0 : ℝ), (0 : ℝ)) 95).2.2 (by simp) (by norm_num)⟩

end Dashboard
